import Mathlib

/-!
Verification development for the `proxy-hubspot` repository: a shallow
embedding of its payload composers, field sanitizers, CRM fetch helpers and
webhook orchestrators, followed by theorems settling the specification
claims about them.

The repository contains one named source file (`src/api/index.js`) and
three unnamed near-duplicate variants.  We embed each variant that a claim
cites in its own namespace:

* `IndexJs`  — `src/api/index.js`
* `Part001`  — `src/unnamed/part_001`
* `Part000A` — first script in `src/unnamed/part_000` (lines 1–449)
* `Part000B` — second script in `src/unnamed/part_000` (lines 450–836)

JavaScript values that flow through the composers are modelled by `JSVal`
(string, integer, `null`, `undefined`); CRM records are association lists
from property names to strings, exactly the shape HubSpot's search API
returns.  The non-deterministic inputs of the code — the current date and
the value `uuidv4()` would produce — are passed explicitly as parameters.
-/

set_option maxHeartbeats 1000000

/-- Decidable equality for `Except`, so that concrete runs of the
fallible composer can be checked by `decide`. -/
instance {ε α : Type} [DecidableEq ε] [DecidableEq α] :
    DecidableEq (Except ε α) := fun a b =>
  match a, b with
  | .ok x, .ok y =>
    if h : x = y then .isTrue (by rw [h]) else .isFalse (by intro hc; cases hc; exact h rfl)
  | .error x, .error y =>
    if h : x = y then .isTrue (by rw [h]) else .isFalse (by intro hc; cases hc; exact h rfl)
  | .ok _, .error _ => .isFalse (by intro hc; cases hc)
  | .error _, .ok _ => .isFalse (by intro hc; cases hc)

/-- A JavaScript value as the proxy's data paths can produce it:
a string, an integer, `null`, or `undefined`. -/
inductive JSVal where
  | str : String → JSVal
  | num : Int → JSVal
  | null : JSVal
  | undefined : JSVal
  deriving DecidableEq, Repr

/-- JavaScript truthiness restricted to the values of `JSVal`:
`""`, `0`, `null` and `undefined` are falsy, everything else truthy. -/
def truthy : JSVal → Bool
  | .str s => s ≠ ""
  | .num n => n ≠ 0
  | .null => false
  | .undefined => false

/-- The JavaScript `a || b` operator on `JSVal`. -/
def jsOr (a b : JSVal) : JSVal :=
  if truthy a then a else b

/-- JavaScript `String(value)` coercion for the values of `JSVal`. -/
def jsToString : JSVal → String
  | .str s => s
  | .num n => toString n
  | .null => "null"
  | .undefined => "undefined"

/-- A CRM record: the `properties` map of a HubSpot search result,
property name to string value. -/
abbrev Record := List (String × String)

/-- JavaScript property access `record.field`: the stored string, or
`undefined` when the property is absent. -/
def getProp (r : Record) (k : String) : JSVal :=
  match r.lookup k with
  | some s => .str s
  | none => .undefined

/-- JavaScript `s.trim()`: strip whitespace from both ends. -/
def jsTrim (s : String) : String :=
  String.mk (((s.data.dropWhile Char.isWhitespace).reverse.dropWhile
    Char.isWhitespace).reverse)

/-- `sanitizeText` from the source (identical in every variant):
returns the trimmed string when the input is a string with non-blank
content, else `null`. -/
def sanitizeText : JSVal → JSVal
  | .str s => if jsTrim s ≠ "" then .str (jsTrim s) else .null
  | _ => .null

/-- `sanitizeString` from the source: `null` stays `null`/`undefined`
maps to `null`; any other value is coerced to a string, trimmed, and an
empty trim falls back to `null` (the `|| null` in the source). -/
def sanitizeString (v : JSVal) : JSVal :=
  match v with
  | .null => .null
  | .undefined => .null
  | x => if jsTrim (jsToString x) = "" then .null else .str (jsTrim (jsToString x))

/-- The value of a digit run, most significant first. -/
def digitsVal (cs : List Char) : Nat :=
  cs.foldl (fun a c => a * 10 + (c.toNat - 48)) 0

/-- JavaScript `parseInt(s, 10)`: skip leading whitespace, read an
optional sign and then a leading run of decimal digits; `none` models
`NaN` (no digits found). -/
def parseIntJS (s : String) : Option Int :=
  let t := s.data.dropWhile Char.isWhitespace
  match t with
  | '-' :: rest =>
    let ds := rest.takeWhile Char.isDigit
    if ds.isEmpty then none else some (-(digitsVal ds : Int))
  | '+' :: rest =>
    let ds := rest.takeWhile Char.isDigit
    if ds.isEmpty then none else some (digitsVal ds)
  | rest =>
    let ds := rest.takeWhile Char.isDigit
    if ds.isEmpty then none else some (digitsVal ds)

/-- `sanitizeInteger` from `src/unnamed/part_001`: `null`, `undefined`
and the empty string map to `null`; otherwise the value is parsed with
`parseInt(value, 10)` and a parse failure (`NaN`) maps to `null`. -/
def sanitizeInteger (v : JSVal) : JSVal :=
  match v with
  | .null => .null
  | .undefined => .null
  | .str s =>
    if s = "" then .null
    else match parseIntJS s with
      | some n => .num n
      | none => .null
  | .num n =>
    match parseIntJS (jsToString (.num n)) with
    | some m => .num m
    | none => .null

/-- The current date, as the components JavaScript's `Date` exposes:
`getDate()`, `getMonth()` (0-based) and `getFullYear()`. -/
structure DateParts where
  day : Nat
  month : Nat
  year : Nat
  deriving DecidableEq, Repr

/-- The month-abbreviation table every composer declares. -/
def monthsEn : List String :=
  ["JAN", "FEB", "MAR", "APR", "MAY", "JUN",
   "JUL", "AUG", "SEP", "OCT", "NOV", "DEC"]

/-- JavaScript `s.padStart(2, "0")`. -/
def padStart2 (s : String) : String :=
  if s.length < 2 then String.mk (List.replicate (2 - s.length) '0') ++ s else s

/-- JavaScript `s.slice(-2)`: the last two characters (the whole string
when shorter). -/
def sliceLast2 (s : String) : String :=
  String.mk (s.data.drop (s.data.length - 2))

/-- JavaScript array indexing `l[i]` with an `Int` index, stringified as
a template literal would: out-of-range or negative indices give the
string `"undefined"`. -/
def jsListIndex (l : List String) (i : Int) : String :=
  if 0 ≤ i then l.getD i.toNat "undefined" else "undefined"

/-- JavaScript `s.split('/')` on a character list: split at every `/`,
keeping empty segments; the empty string yields `[""]`. -/
def splitSlashChars : List Char → List String
  | [] => [""]
  | c :: rest =>
    let r := splitSlashChars rest
    if c = '/' then "" :: r
    else
      match r with
      | [] => [String.mk [c]]
      | h :: t => (String.mk [c] ++ h) :: t

/-- JavaScript `s.split('/')`. -/
def jsSplitSlash (s : String) : List String :=
  splitSlashChars s.data

/-- The `DD-MMM-YY` current-date string every composer builds
(`currentDate` in the source). -/
def currentDateStr (now : DateParts) : String :=
  padStart2 (toString now.day) ++ "-" ++ monthsEn.getD now.month "undefined"
    ++ "-" ++ sliceLast2 (toString now.year)

/-- The `DD/MM/YYYY` string `src/api/index.js` builds
(`formattedDate` in the source). -/
def formattedDateStr (now : DateParts) : String :=
  padStart2 (toString now.day) ++ "/" ++ padStart2 (toString (now.month + 1))
    ++ "/" ++ toString now.year

/-- A search result as HubSpot returns it: we keep only the
`properties` field the code reads. -/
structure SearchResult where
  properties : Record
  deriving DecidableEq, Repr

/-- The body of a HubSpot search response: the `results` array. -/
structure SearchResponse where
  results : List SearchResult
  deriving DecidableEq, Repr

/-- The body of the external token endpoint's response: the optional
`access_token` field. -/
structure TokenResponse where
  accessToken : Option String
  deriving DecidableEq, Repr

/-- The outcomes of the five outbound HTTP calls a webhook invocation
can make, supplied as oracles: an `Except.error` is a network-level
axios failure carrying its message. -/
structure Oracles where
  contactSearch : Except String SearchResponse
  dealSearch : Except String SearchResponse
  patchContact : Except String Unit
  patchDeal : Except String Unit
  tokenCall : Except String TokenResponse
  surveyCall : Except String JSVal

/-- One outbound call of a webhook invocation, for order-of-effects
reasoning. -/
inductive Event where
  | fetchContact
  | fetchDeal
  | patchContact
  | patchDeal
  | fetchToken
  | submitSurvey
  deriving DecidableEq, Repr

/-- The value a webhook handler responds with: a 400 validation
envelope carrying the two presence flags it reports, the 500
missing-token envelope, the 500 catch-all envelope with the thrown
message as `details`, or the 200 success envelope. -/
inductive WebhookOutcome where
  | badRequest (dealIdPresent contactIdPresent : Bool)
  | configError
  | serverError (details : String)
  | ok (payload : List (String × JSVal)) (result : JSVal)
  deriving DecidableEq, Repr

/-- The HTTP status each outcome is sent with. -/
def statusOf : WebhookOutcome → Nat
  | .badRequest _ _ => 400
  | .configError => 500
  | .serverError _ => 500
  | .ok _ _ => 200

example : sanitizeText (.str "  hi  ") = .str "hi" := by decide
example : sanitizeText (.str "") = .null := by decide
example : sanitizeText (.num 42) = .null := by decide
example : sanitizeInteger (.str "7") = .num 7 := by decide
example : sanitizeInteger (.str "abc") = .null := by decide
example : sanitizeInteger (.str "") = .null := by decide
example : sanitizeString (.num 3) = .str "3" := by decide
example : currentDateStr ⟨5, 0, 2024⟩ = "05-JAN-24" := by decide
example : formattedDateStr ⟨5, 0, 2024⟩ = "05/01/2024" := by decide

namespace IndexJs

/-- `getContactData` from `src/api/index.js`: given the search response
for the contact search request, return the first result's properties,
or throw `No se encontró el contacto` on an empty result list.  The
`contactId` only parameterises the search request; the error message
does not use it. -/
def getContactData (contactId : JSVal) (resp : Except String SearchResponse) :
    Except String Record :=
  match resp with
  | .error e => .error e
  | .ok r =>
    match r.results with
    | res :: _ => .ok res.properties
    | [] => .error "No se encontró el contacto"

/-- `getDealData` from `src/api/index.js`: first result's properties,
or `No se encontró el negocio` on an empty result list. -/
def getDealData (dealId : JSVal) (resp : Except String SearchResponse) :
    Except String Record :=
  match resp with
  | .error e => .error e
  | .ok r =>
    match r.results with
    | res :: _ => .ok res.properties
    | [] => .error "No se encontró el negocio"

/-- `getAuthToken` from `src/api/index.js`: return the `access_token`
field of the token response, throwing when it is absent. -/
def getAuthToken (resp : Except String TokenResponse) : Except String String :=
  match resp with
  | .error e => .error e
  | .ok t =>
    match t.accessToken with
    | some a => .ok a
    | none => .error "No se pudo obtener el token externo"

/-- The `idnpsValue` computation of `prepareSurveyPayload` in
`src/api/index.js`: reuse `contactData.idnps` when it is a truthy string
whose trim is non-empty, else take the fresh `uuidv4()` value. -/
def idnpsValue (contactData : Record) (fresh : String) : JSVal :=
  match getProp contactData "idnps" with
  | .str s => if jsTrim s ≠ "" then .str s else .str fresh
  | _ => .str fresh

/-- `prepareSurveyPayload` from `src/api/index.js`, as the association
list its object literal builds; `now` stands for `new Date()` and
`fresh` for the value `uuidv4()` returns. -/
def prepareSurveyPayload (contactData dealData : Record) (now : DateParts)
    (fresh : String) : List (String × JSVal) :=
  let currentDate := currentDateStr now
  let formattedDate := formattedDateStr now
  [("idnps", idnpsValue contactData fresh),
   ("fechaencuesta", jsOr (getProp contactData "fechaencuesta") (.str currentDate)),
   ("fecha_encuesta", .str formattedDate),
   ("valornps", jsOr (getProp contactData "valornps") (.str "")),
   ("concepto", jsOr (getProp dealData "concepto") (.str "")),
   ("local", jsOr (getProp dealData "local") (.str "")),
   ("provincia", jsOr (getProp dealData "provincia_homologada")
      (jsOr (getProp dealData "provincia") (.str ""))),
   ("region", jsOr (getProp dealData "region") (.str "")),
   ("centro", jsOr (getProp dealData "centro") (.str "")),
   ("identificacion", jsOr (getProp contactData "contact_id") (.str "")),
   ("nombres", jsOr (getProp contactData "firstname") (.str "")),
   ("apellidos", jsOr (getProp contactData "lastname") (.str "")),
   ("mejoras", jsOr (getProp contactData "mejoras") (.str "")),
   ("comentario", jsOr (getProp contactData "comentario") (.str "")),
   ("telefono", jsOr (getProp contactData "phone") (.str "")),
   ("email", jsOr (getProp contactData "email")
      (jsOr (getProp contactData "email_principal") (.str ""))),
   ("fechaenvio", jsOr (getProp contactData "fechamail") (.str currentDate)),
   ("genero", sanitizeText (getProp contactData "genero")),
   ("edad", sanitizeString (getProp contactData "edadnps")),
   ("ropa", sanitizeText (getProp contactData "ropa")),
   ("zapatos", sanitizeText (getProp contactData "zapatos")),
   ("talla_ropa", sanitizeText (getProp contactData "talla_ropa")),
   ("adolecentes_adultos", sanitizeText (getProp contactData "adolecentes_adultos")),
   ("infantes", sanitizeText (getProp contactData "infantes")),
   ("ninos", sanitizeText (getProp contactData "ninos")),
   ("talla_zapatos", sanitizeString (getProp contactData "talla_zapatos")),
   ("actividad", sanitizeText (getProp contactData "actividad")),
   ("actividad_otros", sanitizeText (getProp contactData "actividad_otros"))]

/-- The `POST /api/webhook` handler of `src/api/index.js`, with the
outbound calls it performed recorded in order.  The source sequence is:
validate ids, check the token, fetch contact, fetch deal, compose,
patch the contact (writeback), fetch the external token, submit. -/
def webhook (dealId contactId : JSVal) (hubspotToken : Option String)
    (o : Oracles) (now : DateParts) (fresh : String) :
    WebhookOutcome × List Event :=
  if !truthy dealId || !truthy contactId then
    (.badRequest (truthy dealId) (truthy contactId), [])
  else
    match hubspotToken with
    | none => (.configError, [])
    | some _ =>
      match getContactData contactId o.contactSearch with
      | .error e => (.serverError e, [.fetchContact])
      | .ok contactData =>
        match getDealData dealId o.dealSearch with
        | .error e => (.serverError e, [.fetchContact, .fetchDeal])
        | .ok dealData =>
          let surveyPayload := prepareSurveyPayload contactData dealData now fresh
          match o.patchContact with
          | .error e =>
            (.serverError e, [.fetchContact, .fetchDeal, .patchContact])
          | .ok _ =>
            match getAuthToken o.tokenCall with
            | .error e =>
              (.serverError e,
                [.fetchContact, .fetchDeal, .patchContact, .fetchToken])
            | .ok _ =>
              match o.surveyCall with
              | .error e =>
                (.serverError e,
                  [.fetchContact, .fetchDeal, .patchContact, .fetchToken,
                   .submitSurvey])
              | .ok result =>
                (.ok surveyPayload result,
                  [.fetchContact, .fetchDeal, .patchContact, .fetchToken,
                   .submitSurvey])

end IndexJs

namespace Part001

/-- `getDealData` from `src/unnamed/part_001` (same shape as
`IndexJs.getDealData`). -/
def getDealData (dealId : JSVal) (resp : Except String SearchResponse) :
    Except String Record :=
  match resp with
  | .error e => .error e
  | .ok r =>
    match r.results with
    | res :: _ => .ok res.properties
    | [] => .error "No se encontró el negocio"

/-- `getContactData` from `src/unnamed/part_001`. -/
def getContactData (contactId : JSVal) (resp : Except String SearchResponse) :
    Except String Record :=
  match resp with
  | .error e => .error e
  | .ok r =>
    match r.results with
    | res :: _ => .ok res.properties
    | [] => .error "No se encontró el contacto"

/-- `getAuthToken` from `src/unnamed/part_001`. -/
def getAuthToken (resp : Except String TokenResponse) : Except String String :=
  match resp with
  | .error e => .error e
  | .ok t =>
    match t.accessToken with
    | some a => .ok a
    | none => .error "No se pudo obtener el token de autenticación"

/-- `prepareSurveyPayload` from `src/unnamed/part_001`: note
`idnps: contactData.idnps || uuidv4()` (plain truthiness, no trim),
`local`/`localmcu` preferring `centro` over `local`, and the integer
sanitizer on `valornps` and `edadnps`. -/
def prepareSurveyPayload (dealData contactData : Record) (now : DateParts)
    (fresh : String) : List (String × JSVal) :=
  let currentDate := currentDateStr now
  [("idnps", jsOr (getProp contactData "idnps") (.str fresh)),
   ("fechaencuesta", jsOr (getProp contactData "fechaencuesta") (.str currentDate)),
   ("valornps", sanitizeInteger (getProp contactData "valornps")),
   ("nrodocumento", .str ""),
   ("concepto", jsOr (getProp dealData "concepto") (.str "")),
   ("local", jsOr (getProp dealData "centro")
      (jsOr (getProp dealData "local") (.str ""))),
   ("provincia", jsOr (getProp dealData "provincia_homologada")
      (jsOr (getProp dealData "provincia") (.str ""))),
   ("region", jsOr (getProp dealData "region") (.str "")),
   ("identificacion", jsOr (getProp contactData "contact_id") (.str "")),
   ("nombres", jsOr (getProp contactData "firstname") (.str "")),
   ("apellidos", jsOr (getProp contactData "lastname") (.str "")),
   ("mejoras", jsOr (getProp contactData "mejoras") (.str "")),
   ("comentario", jsOr (getProp contactData "comentario") (.str "")),
   ("telefono", jsOr (getProp contactData "phone") (.str "")),
   ("email", jsOr (getProp contactData "email")
      (jsOr (getProp contactData "email_principal") (.str ""))),
   ("localmcu", jsOr (getProp dealData "centro")
      (jsOr (getProp dealData "local") (.str ""))),
   ("fechaenvio", jsOr (getProp contactData "fechamail") (.str currentDate)),
   ("genero", sanitizeText (getProp contactData "genero")),
   ("edad", sanitizeInteger (getProp contactData "edadnps")),
   ("ropa", sanitizeText (getProp contactData "ropa")),
   ("zapatos", sanitizeText (getProp contactData "zapatos")),
   ("talla_ropa", sanitizeText (getProp contactData "talla_ropa")),
   ("adolecentes_adultos", sanitizeText (getProp contactData "adolecentes_adultos")),
   ("infantes", sanitizeText (getProp contactData "infantes")),
   ("ninos", sanitizeText (getProp contactData "ninos")),
   ("talla_zapatos", sanitizeText (getProp contactData "talla_zapatos")),
   ("actividad", sanitizeText (getProp contactData "actividad")),
   ("actividad_otros", sanitizeText (getProp contactData "actividad_otros"))]

/-- The `POST /api/webhook` handler of `src/unnamed/part_001`: validate
ids, check the token, fetch deal, fetch contact, fetch the external
token, compose, submit; no CRM writeback. -/
def webhook (dealId contactId : JSVal) (hubspotToken : Option String)
    (o : Oracles) (now : DateParts) (fresh : String) :
    WebhookOutcome × List Event :=
  if !truthy dealId || !truthy contactId then
    (.badRequest (truthy dealId) (truthy contactId), [])
  else
    match hubspotToken with
    | none => (.configError, [])
    | some _ =>
      match getDealData dealId o.dealSearch with
      | .error e => (.serverError e, [.fetchDeal])
      | .ok dealData =>
        match getContactData contactId o.contactSearch with
        | .error e => (.serverError e, [.fetchDeal, .fetchContact])
        | .ok contactData =>
          match getAuthToken o.tokenCall with
          | .error e => (.serverError e, [.fetchDeal, .fetchContact, .fetchToken])
          | .ok _ =>
            let surveyPayload := prepareSurveyPayload dealData contactData now fresh
            match o.surveyCall with
            | .error e =>
              (.serverError e,
                [.fetchDeal, .fetchContact, .fetchToken, .submitSurvey])
            | .ok result =>
              (.ok surveyPayload result,
                [.fetchDeal, .fetchContact, .fetchToken, .submitSurvey])

end Part001

namespace Part000A

/-- The `fechamail` reformatting block of the first
`prepareSurveyPayload` variant in `src/unnamed/part_000` (lines
313–321): destructure `fmailRaw.split('/')` into day, month and year;
`year.slice(-2)` throws a `TypeError` when the split produced fewer
than three segments (`year` is then `undefined`); a month that does not
parse indexes the months table at `NaN`, interpolating `"undefined"`. -/
def fmailCompute (s : String) : Except Unit String :=
  let parts := jsSplitSlash s
  if parts.length < 3 then .error ()
  else
    let day := parts.getD 0 ""
    let month := parts.getD 1 ""
    let year := parts.getD 2 ""
    let monthStr :=
      match parseIntJS month with
      | some n => jsListIndex monthsEn (n - 1)
      | none => "undefined"
    .ok (padStart2 day ++ "-" ++ monthStr ++ "-" ++ sliceLast2 year)

/-- The outcome of the `fechamail` block for a whole contact record:
skipped (empty `fmail`) when `fechamail` is falsy, else `fmailCompute`. -/
def fmailRes (contactData : Record) : Except Unit String :=
  match getProp contactData "fechamail" with
  | .str s => if s = "" then .ok "" else fmailCompute s
  | _ => .ok ""

/-- `prepareSurveyPayload` from the first script in
`src/unnamed/part_000`: always generates a fresh `idnps`, reads survey
fields from the deal record, and throws (models as `Except.error`) when
`contactData.fechamail` is a truthy string whose split on `/` has fewer
than three segments. -/
def prepareSurveyPayload (surveyData contactData : Record) (now : DateParts)
    (fresh : String) : Except Unit (List (String × JSVal)) :=
  let currentDate := currentDateStr now
  match fmailRes contactData with
  | .error e => .error e
  | .ok fmail =>
    .ok
      [("idnps", .str fresh),
       ("fechaencuesta", .str currentDate),
       ("valornps", jsOr (getProp surveyData "valornps") (.str "")),
       ("nrodocumento", .str ""),
       ("concepto", jsOr (getProp surveyData "concepto") (.str "")),
       ("local", jsOr (getProp surveyData "centro") (.str "")),
       ("provincia", jsOr (getProp surveyData "provincia_homologada") (.str "")),
       ("region", jsOr (getProp surveyData "region") (.str "")),
       ("identificacion", jsOr (getProp contactData "contact_id") (.str "")),
       ("nombres", jsOr (getProp contactData "firstname") (.str "")),
       ("apellidos", jsOr (getProp contactData "lastname") (.str "")),
       ("mejoras", jsOr (getProp surveyData "mejoras") (.str "")),
       ("comentario", jsOr (getProp surveyData "comentario") (.str "")),
       ("telefono", jsOr (getProp contactData "phone") (.str "")),
       ("email", jsOr (getProp contactData "email")
          (jsOr (getProp contactData "email_principal") (.str ""))),
       ("localmcu", jsOr (getProp surveyData "localmcu")
          (jsOr (getProp surveyData "centro") (.str ""))),
       ("fechaenvio", jsOr (.str fmail) (.str currentDate)),
       ("genero", sanitizeText (getProp surveyData "genero")),
       ("edad", sanitizeString (getProp surveyData "edad")),
       ("ropa", sanitizeText (getProp surveyData "ropa")),
       ("zapatos", sanitizeText (getProp surveyData "zapatos")),
       ("talla_ropa", sanitizeText (getProp surveyData "talla_ropa")),
       ("adolecentes_adultos", sanitizeText (getProp surveyData "adolecentes_adultos")),
       ("infantes", sanitizeText (getProp surveyData "infantes")),
       ("ninos", sanitizeText (getProp surveyData "ninos")),
       ("talla_zapatos", sanitizeString (getProp surveyData "talla_zapatos")),
       ("actividad", sanitizeText (getProp surveyData "actividad")),
       ("actividad_otros", sanitizeText (getProp surveyData "actividad_otros"))]

end Part000A

namespace Part000B

/-- `prepareSurveyPayload` from the second script in
`src/unnamed/part_000` (lines 756–793): always generates a fresh
`idnps` (`idnps: uuidv4()`), applies no sanitizer, and defaults every
missing field to the empty string. -/
def prepareSurveyPayload (surveyData contactData : Record) (now : DateParts)
    (fresh : String) : List (String × JSVal) :=
  let currentDate := currentDateStr now
  [("idnps", .str fresh),
   ("fechaencuesta", jsOr (getProp surveyData "fechaencuesta") (.str currentDate)),
   ("valornps", jsOr (getProp surveyData "valornps") (.str "")),
   ("nrodocumento", jsOr (getProp contactData "contact_id") (.str "")),
   ("concepto", jsOr (getProp surveyData "concepto") (.str "")),
   ("local", jsOr (getProp surveyData "local") (.str "")),
   ("provincia", jsOr (getProp surveyData "provincia") (.str "")),
   ("region", jsOr (getProp surveyData "region") (.str "")),
   ("identificacion", jsOr (getProp contactData "contact_id") (.str "")),
   ("nombres", jsOr (getProp contactData "firstname") (.str "")),
   ("apellidos", jsOr (getProp contactData "lastname") (.str "")),
   ("mejoras", jsOr (getProp surveyData "mejoras") (.str "")),
   ("comentario", jsOr (getProp surveyData "comentario") (.str "")),
   ("telefono", jsOr (getProp contactData "phone") (.str "")),
   ("email", jsOr (getProp contactData "email")
      (jsOr (getProp contactData "email_principal") (.str ""))),
   ("localmcu", jsOr (getProp surveyData "localmcu")
      (jsOr (getProp surveyData "local") (.str ""))),
   ("fechaenvio", .str currentDate),
   ("genero", jsOr (getProp surveyData "genero") (.str "")),
   ("edad", jsOr (getProp surveyData "edad") (.str "")),
   ("ropa", jsOr (getProp surveyData "ropa") (.str "")),
   ("zapatos", jsOr (getProp surveyData "zapatos") (.str "")),
   ("talla_ropa", jsOr (getProp surveyData "talla_ropa") (.str "")),
   ("adolecentes_adultos", jsOr (getProp surveyData "adolecentes_adultos") (.str "")),
   ("infantes", jsOr (getProp surveyData "infantes") (.str "")),
   ("ninos", jsOr (getProp surveyData "ninos") (.str "")),
   ("talla_zapatos", jsOr (getProp surveyData "talla_zapatos") (.str "")),
   ("actividad", jsOr (getProp surveyData "actividad") (.str "")),
   ("actividad_otros", jsOr (getProp surveyData "actividad_otros") (.str ""))]

end Part000B

/-- A payload value that is a string or `null` (the value shapes
`src/api/index.js` can emit). -/
def strOrNull : JSVal → Bool
  | .str _ => true
  | .null => true
  | _ => false

/-- A payload value that is defined: a string, an integer or `null`,
never `undefined`. -/
def definedVal : JSVal → Bool
  | .undefined => false
  | _ => true

/-- The fixed key set of the `src/api/index.js` payload, in source
order. -/
def ixKeys : List String :=
  ["idnps", "fechaencuesta", "fecha_encuesta", "valornps", "concepto", "local",
   "provincia", "region", "centro", "identificacion", "nombres", "apellidos",
   "mejoras", "comentario", "telefono", "email", "fechaenvio", "genero",
   "edad", "ropa", "zapatos", "talla_ropa", "adolecentes_adultos", "infantes",
   "ninos", "talla_zapatos", "actividad", "actividad_otros"]

/-- The fixed key set of the `src/unnamed/part_001` payload, in source
order. -/
def p1Keys : List String :=
  ["idnps", "fechaencuesta", "valornps", "nrodocumento", "concepto", "local",
   "provincia", "region", "identificacion", "nombres", "apellidos", "mejoras",
   "comentario", "telefono", "email", "localmcu", "fechaenvio", "genero",
   "edad", "ropa", "zapatos", "talla_ropa", "adolecentes_adultos", "infantes",
   "ninos", "talla_zapatos", "actividad", "actividad_otros"]

/-- Outbound-call order of the `src/api/index.js` webhook handler on
its success path. -/
def ixCallOrder : List Event :=
  [.fetchContact, .fetchDeal, .patchContact, .fetchToken, .submitSurvey]

/-- Outbound-call order of the `src/unnamed/part_001` webhook handler
on its success path. -/
def p1CallOrder : List Event :=
  [.fetchDeal, .fetchContact, .fetchToken, .submitSurvey]

/-- An all-successful set of outbound-call oracles, for concrete runs. -/
def okOracles : Oracles where
  contactSearch := .ok ⟨[⟨[("firstname", "Jane")]⟩]⟩
  dealSearch := .ok ⟨[⟨[("concepto", "A")]⟩]⟩
  patchContact := .ok ()
  patchDeal := .ok ()
  tokenCall := .ok ⟨some "tok"⟩
  surveyCall := .ok .null

/-- Oracles whose contact search returns an empty result list. -/
def emptyContactOracles : Oracles where
  contactSearch := .ok ⟨[]⟩
  dealSearch := .ok ⟨[⟨[("concepto", "A")]⟩]⟩
  patchContact := .ok ()
  patchDeal := .ok ()
  tokenCall := .ok ⟨some "tok"⟩
  surveyCall := .ok .null

example : jsSplitSlash "15/01/2023" = ["15", "01", "2023"] := by decide
example : jsSplitSlash "20230115" = ["20230115"] := by decide
example : jsSplitSlash "" = [""] := by decide
example : jsSplitSlash "a//b" = ["a", "", "b"] := by decide
example :
    Part000A.fmailCompute "15/01/2023" = .ok "15-JAN-23" := by decide
example :
    Part000A.fmailCompute "20230115" = .error () := by decide
example :
    (IndexJs.webhook (.str "1") (.str "2") (some "t") okOracles ⟨5, 0, 2024⟩ "u0").2
      = ixCallOrder := by decide
example :
    (Part001.webhook (.str "1") (.str "2") (some "t") okOracles ⟨5, 0, 2024⟩ "u0").2
      = p1CallOrder := by decide
example : [Event.fetchContact, Event.fetchDeal] <+: ixCallOrder := by decide
example :
    (IndexJs.prepareSurveyPayload [("idnps", "X")] [] ⟨5, 0, 2024⟩ "u0").lookup "idnps"
      = some (.str "X") := by decide

theorem aux_strOrNull_jsOr (r : Record) (k : String) (v : JSVal)
    (h : strOrNull v = true) : strOrNull (jsOr (getProp r k) v) = true := by
  unfold jsOr getProp
  cases hr : r.lookup k with
  | none => simpa [truthy] using h
  | some s =>
    by_cases hs : s = ""
    · simpa [truthy, hs] using h
    · simp [truthy, hs, strOrNull]

theorem aux_strOrNull_jsOr_str (r : Record) (k : String) (d : String) :
    strOrNull (jsOr (getProp r k) (.str d)) = true :=
  aux_strOrNull_jsOr r k (.str d) rfl

theorem aux_strOrNull_jsOr_jsOr (r r' : Record) (k k' : String) (d : String) :
    strOrNull (jsOr (getProp r k) (jsOr (getProp r' k') (.str d))) = true :=
  aux_strOrNull_jsOr r k _ (aux_strOrNull_jsOr_str r' k' d)

theorem aux_strOrNull_sanitizeText (v : JSVal) :
    strOrNull (sanitizeText v) = true := by
  cases v with
  | str s =>
    have hform : sanitizeText (.str s)
        = if jsTrim s ≠ "" then .str (jsTrim s) else .null := rfl
    rw [hform]
    by_cases h : jsTrim s = "" <;> simp [h, strOrNull]
  | num n => rfl
  | null => rfl
  | undefined => rfl

theorem aux_strOrNull_sanitizeString (v : JSVal) :
    strOrNull (sanitizeString v) = true := by
  cases v with
  | str s =>
    have hform : sanitizeString (.str s)
        = if jsTrim s = "" then .null else .str (jsTrim s) := rfl
    rw [hform]
    by_cases h : jsTrim s = "" <;> simp [h, strOrNull]
  | num n =>
    have hform : sanitizeString (.num n)
        = if jsTrim (toString n) = "" then .null else .str (jsTrim (toString n)) := rfl
    rw [hform]
    by_cases h : jsTrim (toString n) = "" <;> simp [h, strOrNull]
  | null => rfl
  | undefined => rfl

theorem aux_strOrNull_idnpsValue (c : Record) (u : String) :
    strOrNull (IndexJs.idnpsValue c u) = true := by
  unfold IndexJs.idnpsValue
  cases getProp c "idnps" with
  | str s => by_cases h : jsTrim s = "" <;> simp [h, strOrNull]
  | num n => rfl
  | null => rfl
  | undefined => rfl

theorem aux_definedVal_of_strOrNull (v : JSVal) (h : strOrNull v = true) :
    definedVal v = true := by
  cases v <;> simp_all [strOrNull, definedVal]

theorem aux_definedVal_sanitizeInteger (v : JSVal) :
    definedVal (sanitizeInteger v) = true := by
  cases v with
  | null => rfl
  | undefined => rfl
  | str s =>
    by_cases hs : s = ""
    · simp [sanitizeInteger, hs, definedVal]
    · cases hp : parseIntJS s <;> simp [sanitizeInteger, hs, hp, definedVal]
  | num n =>
    cases hp : parseIntJS (jsToString (.num n)) <;>
      simp [sanitizeInteger, hp, definedVal]

/-- C8: for every input value, `sanitizeText` returns the trimmed
string when the value is a string whose trimmed form is non-empty, and
returns `null` for every other input (empty or whitespace-only strings,
and every non-string value); being a total function of the model, it
never throws. -/
theorem claim_C8_sanitizeText (v : JSVal) :
    (∀ s, v = .str s → jsTrim s ≠ "" → sanitizeText v = .str (jsTrim s)) ∧
    (∀ s, v = .str s → jsTrim s = "" → sanitizeText v = .null) ∧
    ((∀ s, v ≠ .str s) → sanitizeText v = .null) := by
  refine ⟨?_, ?_, ?_⟩
  · rintro s rfl h
    simp [sanitizeText, h]
  · rintro s rfl h
    simp [sanitizeText, h]
  · intro h
    cases v with
    | str s => exact absurd rfl (h s)
    | num n => rfl
    | null => rfl
    | undefined => rfl

theorem claim_C8_witness :
    sanitizeText (.str "  hi  ") = .str "hi" ∧
    sanitizeText (.str "") = .null ∧
    sanitizeText (.num 42) = .null := by
  refine ⟨?_, ?_, ?_⟩
  · have h := (claim_C8_sanitizeText (.str "  hi  ")).1 "  hi  " rfl (by decide)
    rw [h]
    decide
  · exact (claim_C8_sanitizeText (.str "")).2.1 "" rfl (by decide)
  · exact (claim_C8_sanitizeText (.num 42)).2.2 (by intro s h; cases h)

/-- C9: `sanitizeInteger` parses numeric input to the integer (the
string `"7"` yields `7`), returns `null` on empty input (empty string,
`null`, `undefined`) and on parse failure (`"abc"`), and — being total —
always produces an integer or `null`, never throwing. -/
theorem claim_C9_sanitizeInteger :
    sanitizeInteger (.str "7") = .num 7 ∧
    sanitizeInteger (.str "") = .null ∧
    sanitizeInteger .null = .null ∧
    sanitizeInteger .undefined = .null ∧
    sanitizeInteger (.str "abc") = .null ∧
    ∀ v : JSVal, sanitizeInteger v = .null ∨ ∃ n : Int, sanitizeInteger v = .num n := by
  refine ⟨by decide, by decide, by decide, by decide, by decide, ?_⟩
  intro v
  cases v with
  | null => exact Or.inl rfl
  | undefined => exact Or.inl rfl
  | str s =>
    by_cases hs : s = ""
    · exact Or.inl (by simp [sanitizeInteger, hs])
    · cases hp : parseIntJS s with
      | none => exact Or.inl (by simp [sanitizeInteger, hs, hp])
      | some n => exact Or.inr ⟨n, by simp [sanitizeInteger, hs, hp]⟩
  | num n =>
    cases hp : parseIntJS (jsToString (.num n)) with
    | none => exact Or.inl (by simp [sanitizeInteger, hp])
    | some m => exact Or.inr ⟨m, by simp [sanitizeInteger, hp]⟩

theorem aux_fmailRes_spec (c : Record) :
    Part000A.fmailRes c = .error () ↔
      ∃ s, c.lookup "fechamail" = some s ∧ s ≠ "" ∧ (jsSplitSlash s).length < 3 := by
  unfold Part000A.fmailRes Part000A.fmailCompute
  cases hc : c.lookup "fechamail" with
  | none => simp [getProp, hc]
  | some s =>
    by_cases hs : s = ""
    · subst hs
      simp [getProp, hc]
    · by_cases hl : (jsSplitSlash s).length < 3 <;>
        simp [getProp, hc, hs, hl]

/-- C10: the first `part_000` composer throws on a contact whose
`fechamail` is a non-empty string splitting on `/` into fewer than
three segments (for example one with no `/` at all, leaving the year
segment undefined), and it returns a payload exactly when `fechamail`
is absent, empty, or splits into at least three segments. -/
theorem claim_C10_fechamail_throw (d c : Record) (now : DateParts) (u : String) :
    ((∃ pl, Part000A.prepareSurveyPayload d c now u = .ok pl) ↔
      ∀ s, c.lookup "fechamail" = some s → s ≠ "" → 3 ≤ (jsSplitSlash s).length) ∧
    Part000A.prepareSurveyPayload [] [("fechamail", "20230115")] ⟨5, 0, 2024⟩ "u0"
      = .error () := by
  constructor
  · constructor
    · rintro ⟨pl, hpl⟩ s hs hne
      by_contra hlt
      have herr : Part000A.fmailRes c = .error () :=
        (aux_fmailRes_spec c).mpr ⟨s, hs, hne, by omega⟩
      unfold Part000A.prepareSurveyPayload at hpl
      rw [herr] at hpl
      exact Except.noConfusion hpl
    · intro h
      unfold Part000A.prepareSurveyPayload
      cases hf : Part000A.fmailRes c with
      | ok fmail => exact ⟨_, rfl⟩
      | error e =>
        obtain ⟨s, hs, hne, hlt⟩ := (aux_fmailRes_spec c).mp (by cases e; exact hf)
        exact absurd (h s hs hne) (by omega)
  · decide

theorem claim_C10_witness :
    ∃ pl, Part000A.prepareSurveyPayload [] [("fechamail", "15/01/2023")]
      ⟨5, 0, 2024⟩ "u0" = .ok pl :=
  (claim_C10_fechamail_throw [] [("fechamail", "15/01/2023")] ⟨5, 0, 2024⟩ "u0").1.mpr
    (by
      intro s hs hne
      have he : ([("fechamail", "15/01/2023")] : Record).lookup "fechamail"
          = some "15/01/2023" := rfl
      rw [he] at hs
      injection hs with h
      rw [← h]
      decide)

theorem aux_definedVal_jsOr_str (r : Record) (k : String) (d : String) :
    definedVal (jsOr (getProp r k) (.str d)) = true :=
  aux_definedVal_of_strOrNull _ (aux_strOrNull_jsOr_str r k d)

theorem aux_definedVal_jsOr_jsOr (r r' : Record) (k k' : String) (d : String) :
    definedVal (jsOr (getProp r k) (jsOr (getProp r' k') (.str d))) = true :=
  aux_definedVal_of_strOrNull _ (aux_strOrNull_jsOr_jsOr r r' k k' d)

theorem aux_definedVal_sanitizeText (v : JSVal) :
    definedVal (sanitizeText v) = true :=
  aux_definedVal_of_strOrNull _ (aux_strOrNull_sanitizeText v)

theorem aux_strOrNull_str (s : String) : strOrNull (.str s) = true := rfl

theorem aux_definedVal_str (s : String) : definedVal (.str s) = true := rfl

theorem aux_lookup_head (k : String) (v : JSVal) (t : List (String × JSVal)) :
    ((k, v) :: t).lookup k = some v := by
  simp [List.lookup]

theorem aux_lookup_skip (k k' : String) (v : JSVal) (t : List (String × JSVal))
    (h : k' ≠ k) : ((k, v) :: t).lookup k' = t.lookup k' := by
  have hbeq : (k' == k) = false := by simpa using h
  simp [List.lookup, hbeq]

/-- C3 (amended): for every pair of input records, the composed payload
always carries its fixed key set in source order; in `src/api/index.js`
every value is a string or `null`, and in the `part_001` variant every
value is a string, an integer or `null` — never `undefined`, and no key
is ever absent. -/
theorem claim_C3_payload_keys (c d : Record) (now : DateParts) (u : String) :
    (IndexJs.prepareSurveyPayload c d now u).map Prod.fst = ixKeys ∧
    (IndexJs.prepareSurveyPayload c d now u).all (fun p => strOrNull p.2) = true ∧
    (Part001.prepareSurveyPayload d c now u).map Prod.fst = p1Keys ∧
    (Part001.prepareSurveyPayload d c now u).all (fun p => definedVal p.2) = true := by
  refine ⟨rfl, ?_, rfl, ?_⟩
  · simp [IndexJs.prepareSurveyPayload, aux_strOrNull_jsOr_str,
      aux_strOrNull_jsOr_jsOr, aux_strOrNull_sanitizeText,
      aux_strOrNull_sanitizeString, aux_strOrNull_idnpsValue, aux_strOrNull_str]
  · simp [Part001.prepareSurveyPayload, aux_definedVal_jsOr_str,
      aux_definedVal_jsOr_jsOr, aux_definedVal_sanitizeText,
      aux_definedVal_sanitizeInteger, aux_definedVal_str]

theorem claim_C3_counterexample :
    (Part001.prepareSurveyPayload [] [("valornps", "7")] ⟨5, 0, 2024⟩ "u0").lookup
      "valornps" = some (.num 7) ∧
    strOrNull (.num 7) = false := by decide

/-- C1 (amended): in `src/api/index.js` the payload's `idnps` is the
contact's `idnps` exactly when it is a string with non-blank content
(whitespace-only values also trigger a fresh id); in `part_001` it is
the contact's `idnps` whenever that string is non-empty; the `part_000`
composers always emit the freshly generated id, ignoring any `idnps`
the contact carries. -/
theorem claim_C1_idnps (c d : Record) (now : DateParts) (u : String) :
    (∀ s, c.lookup "idnps" = some s → jsTrim s ≠ "" →
      (IndexJs.prepareSurveyPayload c d now u).lookup "idnps" = some (.str s) ∧
      (Part001.prepareSurveyPayload d c now u).lookup "idnps" = some (.str s)) ∧
    (∀ s, c.lookup "idnps" = some s → s ≠ "" → jsTrim s = "" →
      (IndexJs.prepareSurveyPayload c d now u).lookup "idnps" = some (.str u) ∧
      (Part001.prepareSurveyPayload d c now u).lookup "idnps" = some (.str s)) ∧
    ((c.lookup "idnps" = none ∨ c.lookup "idnps" = some "") →
      (IndexJs.prepareSurveyPayload c d now u).lookup "idnps" = some (.str u) ∧
      (Part001.prepareSurveyPayload d c now u).lookup "idnps" = some (.str u)) ∧
    (∀ pl, Part000A.prepareSurveyPayload d c now u = .ok pl →
      pl.lookup "idnps" = some (.str u)) ∧
    (Part000B.prepareSurveyPayload d c now u).lookup "idnps" = some (.str u) := by
  refine ⟨?_, ?_, ?_, ?_, ?_⟩
  · intro s hc htrim
    have hprop : getProp c "idnps" = .str s := by simp [getProp, hc]
    have hs : s ≠ "" := by
      intro h0
      subst h0
      exact htrim rfl
    constructor
    · have hv : IndexJs.idnpsValue c u = .str s := by
        unfold IndexJs.idnpsValue
        rw [hprop]
        simp [htrim]
      simp only [IndexJs.prepareSurveyPayload]
      rw [aux_lookup_head, hv]
    · have hv : jsOr (getProp c "idnps") (.str u) = .str s := by
        rw [hprop]
        simp [jsOr, truthy, hs]
      simp only [Part001.prepareSurveyPayload]
      rw [aux_lookup_head, hv]
  · intro s hc hne htrim
    have hprop : getProp c "idnps" = .str s := by simp [getProp, hc]
    constructor
    · have hv : IndexJs.idnpsValue c u = .str u := by
        unfold IndexJs.idnpsValue
        rw [hprop]
        simp [htrim]
      simp only [IndexJs.prepareSurveyPayload]
      rw [aux_lookup_head, hv]
    · have hv : jsOr (getProp c "idnps") (.str u) = .str s := by
        rw [hprop]
        simp [jsOr, truthy, hne]
      simp only [Part001.prepareSurveyPayload]
      rw [aux_lookup_head, hv]
  · intro hor
    have hprop : IndexJs.idnpsValue c u = .str u ∧
        jsOr (getProp c "idnps") (.str u) = .str u := by
      rcases hor with hc | hc
      · have h0 : getProp c "idnps" = .undefined := by simp [getProp, hc]
        constructor
        · unfold IndexJs.idnpsValue
          rw [h0]
        · rw [h0]
          simp [jsOr, truthy]
      · have h0 : getProp c "idnps" = .str "" := by simp [getProp, hc]
        have hj : jsTrim "" = "" := rfl
        constructor
        · unfold IndexJs.idnpsValue
          rw [h0]
          simp [hj]
        · rw [h0]
          simp [jsOr, truthy]
    constructor
    · simp only [IndexJs.prepareSurveyPayload]
      rw [aux_lookup_head, hprop.1]
    · simp only [Part001.prepareSurveyPayload]
      rw [aux_lookup_head, hprop.2]
  · intro pl hpl
    unfold Part000A.prepareSurveyPayload at hpl
    cases hf : Part000A.fmailRes c with
    | error e =>
      rw [hf] at hpl
      exact Except.noConfusion hpl
    | ok fmail =>
      rw [hf] at hpl
      injection hpl with h
      rw [← h]
      exact aux_lookup_head _ _ _
  · simp only [Part000B.prepareSurveyPayload]
    rw [aux_lookup_head]

theorem claim_C1_counterexample :
    (Part000A.prepareSurveyPayload [] [("idnps", "X")] ⟨5, 0, 2024⟩
        "fresh-id").toOption.map (fun pl => pl.lookup "idnps")
      = some (some (.str "fresh-id")) ∧
    JSVal.str "fresh-id" ≠ .str "X" := by decide

theorem claim_C1_witness :
    (IndexJs.prepareSurveyPayload [("idnps", "abc")] [] ⟨5, 0, 2024⟩ "u0").lookup
      "idnps" = some (.str "abc") :=
  ((claim_C1_idnps [("idnps", "abc")] [] ⟨5, 0, 2024⟩ "u0").1 "abc" rfl
    (by decide)).1

theorem claim_C4_counterexample :
    (IndexJs.prepareSurveyPayload []
        [("local", "OldLocal"), ("centro", "Centro1"), ("provincia", "Prov"),
         ("provincia_homologada", "ProvH")] ⟨5, 0, 2024⟩ "u0").lookup "local"
      = some (.str "OldLocal") ∧
    (IndexJs.prepareSurveyPayload []
        [("local", "OldLocal"), ("centro", "Centro1"), ("provincia", "Prov"),
         ("provincia_homologada", "ProvH")] ⟨5, 0, 2024⟩ "u0").lookup "provincia"
      = some (.str "ProvH") ∧
    JSVal.str "OldLocal" ≠ .str "Centro1" := by decide

/-- C4 (amended): when the deal carries non-empty values in both field
pairs, the payload's `provincia` equals the deal's
`provincia_homologada` in every cited composer (`src/api/index.js`,
`part_001`, and `part_000`'s first variant), and the payload's `local`
equals the deal's `centro` in `part_001` and in `part_000`'s first
variant; only in `src/api/index.js` is the payload's `local` the deal's
`local` field, with `centro` emitted as a separate key. -/
theorem claim_C4_location_fields (c d : Record) (now : DateParts) (u : String)
    (ph ce lo : String)
    (hph : d.lookup "provincia_homologada" = some ph) (hph2 : ph ≠ "")
    (hce : d.lookup "centro" = some ce) (hce2 : ce ≠ "")
    (hlo : d.lookup "local" = some lo) (hlo2 : lo ≠ "") :
    (IndexJs.prepareSurveyPayload c d now u).lookup "provincia" = some (.str ph) ∧
    (IndexJs.prepareSurveyPayload c d now u).lookup "local" = some (.str lo) ∧
    (IndexJs.prepareSurveyPayload c d now u).lookup "centro" = some (.str ce) ∧
    (Part001.prepareSurveyPayload d c now u).lookup "provincia" = some (.str ph) ∧
    (Part001.prepareSurveyPayload d c now u).lookup "local" = some (.str ce) ∧
    (∀ pl, Part000A.prepareSurveyPayload d c now u = .ok pl →
      pl.lookup "provincia" = some (.str ph) ∧
      pl.lookup "local" = some (.str ce)) := by
  have gph : getProp d "provincia_homologada" = .str ph := by simp [getProp, hph]
  have gce : getProp d "centro" = .str ce := by simp [getProp, hce]
  have glo : getProp d "local" = .str lo := by simp [getProp, hlo]
  have h000 : ∀ pl, Part000A.prepareSurveyPayload d c now u = .ok pl →
      pl.lookup "provincia" = some (.str ph) ∧
      pl.lookup "local" = some (.str ce) := by
    intro pl hpl
    unfold Part000A.prepareSurveyPayload at hpl
    cases hf : Part000A.fmailRes c with
    | error e =>
      rw [hf] at hpl
      exact Except.noConfusion hpl
    | ok fmail =>
      rw [hf] at hpl
      injection hpl with h
      rw [← h]
      constructor
      · simp [List.lookup, gph, jsOr, truthy, hph2]
      · simp [List.lookup, gce, jsOr, truthy, hce2]
  refine ⟨?_, ?_, ?_, ?_, ?_, h000⟩ <;>
    simp [IndexJs.prepareSurveyPayload, Part001.prepareSurveyPayload,
      List.lookup, gph, gce, glo, jsOr, truthy, hph2, hce2, hlo2]

theorem claim_C4_witness :
    (Part001.prepareSurveyPayload
        [("local", "OldLocal"), ("centro", "Centro1"), ("provincia", "Prov"),
         ("provincia_homologada", "ProvH")] [] ⟨5, 0, 2024⟩ "u0").lookup "local"
      = some (.str "Centro1") ∧
    (Part000A.prepareSurveyPayload
        [("local", "OldLocal"), ("centro", "Centro1"), ("provincia", "Prov"),
         ("provincia_homologada", "ProvH")] [] ⟨5, 0, 2024⟩ "u0").toOption.map
      (fun pl => pl.lookup "local") = some (some (.str "Centro1")) := by
  constructor
  · exact (claim_C4_location_fields []
      [("local", "OldLocal"), ("centro", "Centro1"), ("provincia", "Prov"),
       ("provincia_homologada", "ProvH")] ⟨5, 0, 2024⟩ "u0" "ProvH" "Centro1"
      "OldLocal" rfl (by decide) rfl (by decide) rfl (by decide)).2.2.2.2.1
  · cases hp : Part000A.prepareSurveyPayload
        [("local", "OldLocal"), ("centro", "Centro1"), ("provincia", "Prov"),
         ("provincia_homologada", "ProvH")] [] ⟨5, 0, 2024⟩ "u0" with
    | error e =>
      cases e
      exact absurd hp (by decide)
    | ok pl =>
      have h2 := ((claim_C4_location_fields []
        [("local", "OldLocal"), ("centro", "Centro1"), ("provincia", "Prov"),
         ("provincia_homologada", "ProvH")] ⟨5, 0, 2024⟩ "u0" "ProvH" "Centro1"
        "OldLocal" rfl (by decide) rfl (by decide) rfl (by decide)).2.2.2.2.2
        pl hp).2
      simp [Except.toOption, h2]

theorem claim_C5_counterexample :
    (Part000B.prepareSurveyPayload [] [("idnps", "X")] ⟨5, 0, 2024⟩ "u1").lookup
      "idnps" = some (.str "u1") ∧
    (Part000B.prepareSurveyPayload [] [("idnps", "X")] ⟨5, 0, 2024⟩ "u2").lookup
      "idnps" = some (.str "u2") ∧
    ([("idnps", "X")] : Record).lookup "idnps" = some "X" ∧
    JSVal.str "u1" ≠ .str "u2" := by decide

/-- C5 (amended): with identical records and a fixed `now`, the
`src/api/index.js` composer is deterministic on every key except
`idnps`, and deterministic on `idnps` too whenever the contact's
`idnps` has non-blank content; the `part_000` composer emits the fresh
generated id unconditionally, so its `idnps` can differ between two
invocations no matter what the contact record carries. -/
theorem claim_C5_determinism (c d : Record) (now : DateParts) (u1 u2 : String) :
    (∀ k, k ≠ "idnps" →
      (IndexJs.prepareSurveyPayload c d now u1).lookup k
        = (IndexJs.prepareSurveyPayload c d now u2).lookup k) ∧
    (∀ s, c.lookup "idnps" = some s → jsTrim s ≠ "" →
      IndexJs.prepareSurveyPayload c d now u1
        = IndexJs.prepareSurveyPayload c d now u2) ∧
    (∀ k, k ≠ "idnps" →
      (Part000B.prepareSurveyPayload d c now u1).lookup k
        = (Part000B.prepareSurveyPayload d c now u2).lookup k) := by
  refine ⟨?_, ?_, ?_⟩
  · intro k hk
    simp only [IndexJs.prepareSurveyPayload]
    rw [aux_lookup_skip _ _ _ _ hk, aux_lookup_skip _ _ _ _ hk]
  · intro s hc htrim
    have hprop : getProp c "idnps" = .str s := by simp [getProp, hc]
    have hv : IndexJs.idnpsValue c u1 = IndexJs.idnpsValue c u2 := by
      unfold IndexJs.idnpsValue
      rw [hprop]
      simp [htrim]
    simp only [IndexJs.prepareSurveyPayload, hv]
  · intro k hk
    simp only [Part000B.prepareSurveyPayload]
    rw [aux_lookup_skip _ _ _ _ hk, aux_lookup_skip _ _ _ _ hk]

theorem claim_C5_witness :
    IndexJs.prepareSurveyPayload [("idnps", "abc")] [] ⟨5, 0, 2024⟩ "u1"
      = IndexJs.prepareSurveyPayload [("idnps", "abc")] [] ⟨5, 0, 2024⟩ "u2" :=
  (claim_C5_determinism [("idnps", "abc")] [] ⟨5, 0, 2024⟩ "u1" "u2").2.1 "abc"
    rfl (by decide)

theorem aux_ix_shape (dealId contactId : JSVal) (tok : Option String)
    (o : Oracles) (now : DateParts) (u : String) :
    (IndexJs.webhook dealId contactId tok o now u).2 <+: ixCallOrder ∧
    ((IndexJs.webhook dealId contactId tok o now u).2 = ixCallOrder ∨
      ∀ pl r, (IndexJs.webhook dealId contactId tok o now u).1 ≠ .ok pl r) := by
  unfold IndexJs.webhook
  repeat' split
  all_goals refine ⟨⟨_, rfl⟩, ?_⟩
  all_goals first
    | exact Or.inl rfl
    | exact Or.inr (fun pl r h => by simp at h)

theorem aux_p1_shape (dealId contactId : JSVal) (tok : Option String)
    (o : Oracles) (now : DateParts) (u : String) :
    (Part001.webhook dealId contactId tok o now u).2 <+: p1CallOrder ∧
    ((Part001.webhook dealId contactId tok o now u).2 = p1CallOrder ∨
      ∀ pl r, (Part001.webhook dealId contactId tok o now u).1 ≠ .ok pl r) := by
  unfold Part001.webhook
  repeat' split
  all_goals refine ⟨⟨_, rfl⟩, ?_⟩
  all_goals first
    | exact Or.inl rfl
    | exact Or.inr (fun pl r h => by simp at h)

theorem claim_C2_counterexample :
    (IndexJs.webhook (.str "1") (.str "2") (some "t") okOracles ⟨5, 0, 2024⟩
        "u0").2
      = [.fetchContact, .fetchDeal, .patchContact, .fetchToken, .submitSurvey] ∧
    List.indexOf Event.patchContact
        (IndexJs.webhook (.str "1") (.str "2") (some "t") okOracles ⟨5, 0, 2024⟩
          "u0").2
      < List.indexOf Event.fetchToken
        (IndexJs.webhook (.str "1") (.str "2") (some "t") okOracles ⟨5, 0, 2024⟩
          "u0").2 ∧
    List.indexOf Event.patchContact
        (IndexJs.webhook (.str "1") (.str "2") (some "t") okOracles ⟨5, 0, 2024⟩
          "u0").2
      < List.indexOf Event.submitSurvey
        (IndexJs.webhook (.str "1") (.str "2") (some "t") okOracles ⟨5, 0, 2024⟩
          "u0").2 := by decide

/-- C2 (amended): each webhook handler performs its outbound calls in
one fixed order, each at most once, short-circuiting on the first
failure and completing the whole order exactly on success — but the
orders are: `src/api/index.js` fetches the contact, fetches the deal,
writes back to the contact unconditionally, then obtains the external
token and submits (the writeback precedes authentication and
submission); `part_001` fetches the deal, fetches the contact, obtains
the token, then composes and submits, with no writeback at all. -/
theorem claim_C2_call_order (dealId contactId : JSVal) (tok : Option String)
    (o : Oracles) (now : DateParts) (u : String) :
    (IndexJs.webhook dealId contactId tok o now u).2 <+: ixCallOrder ∧
    (∀ e, ((IndexJs.webhook dealId contactId tok o now u).2).count e ≤ 1) ∧
    (∀ pl r, (IndexJs.webhook dealId contactId tok o now u).1 = .ok pl r →
      (IndexJs.webhook dealId contactId tok o now u).2 = ixCallOrder) ∧
    (Part001.webhook dealId contactId tok o now u).2 <+: p1CallOrder ∧
    (∀ e, ((Part001.webhook dealId contactId tok o now u).2).count e ≤ 1) ∧
    (∀ pl r, (Part001.webhook dealId contactId tok o now u).1 = .ok pl r →
      (Part001.webhook dealId contactId tok o now u).2 = p1CallOrder) := by
  obtain ⟨hpre, hsucc⟩ := aux_ix_shape dealId contactId tok o now u
  obtain ⟨hpre1, hsucc1⟩ := aux_p1_shape dealId contactId tok o now u
  refine ⟨hpre, ?_, ?_, hpre1, ?_, ?_⟩
  · intro e
    calc ((IndexJs.webhook dealId contactId tok o now u).2).count e
        ≤ ixCallOrder.count e := hpre.sublist.count_le e
      _ ≤ 1 := by cases e <;> decide
  · intro pl r h
    rcases hsucc with he | hne
    · exact he
    · exact absurd h (hne pl r)
  · intro e
    calc ((Part001.webhook dealId contactId tok o now u).2).count e
        ≤ p1CallOrder.count e := hpre1.sublist.count_le e
      _ ≤ 1 := by cases e <;> decide
  · intro pl r h
    rcases hsucc1 with he | hne
    · exact he
    · exact absurd h (hne pl r)

theorem claim_C2_witness :
    (IndexJs.webhook (.str "1") (.str "2") (some "t") okOracles ⟨5, 0, 2024⟩
        "u0").2 = ixCallOrder ∧
    (Part001.webhook (.str "1") (.str "2") (some "t") okOracles ⟨5, 0, 2024⟩
        "u0").2 = p1CallOrder :=
  ⟨(claim_C2_call_order (.str "1") (.str "2") (some "t") okOracles ⟨5, 0, 2024⟩
      "u0").2.2.1
      (IndexJs.prepareSurveyPayload [("firstname", "Jane")] [("concepto", "A")]
        ⟨5, 0, 2024⟩ "u0") .null rfl,
   (claim_C2_call_order (.str "1") (.str "2") (some "t") okOracles ⟨5, 0, 2024⟩
      "u0").2.2.2.2.2
      (Part001.prepareSurveyPayload [("concepto", "A")] [("firstname", "Jane")]
        ⟨5, 0, 2024⟩ "u0") .null rfl⟩

theorem claim_C6_counterexample :
    IndexJs.getContactData (.str "12345") (.ok ⟨[]⟩)
      = .error "No se encontró el contacto" ∧
    IndexJs.getContactData (.str "99999") (.ok ⟨[]⟩)
      = .error "No se encontró el contacto" ∧
    IndexJs.getDealData (.str "12345") (.ok ⟨[]⟩)
      = .error "No se encontró el negocio" ∧
    "No se encontró el contacto".data.all (fun ch => !ch.isDigit) = true ∧
    "12345".data.all Char.isDigit = true := by decide

/-- C6 (amended): the fetchers return the first result's properties on
a non-empty result list and fail on an empty one with an error naming
which record type was missing (`contacto` / `negocio`) — the message
does not include the searched id — and the webhook handler surfaces the
failure as a 500 whose details carry that message. -/
theorem claim_C6_fetchers (cid did : JSVal) (resp : SearchResponse)
    (tok : String) (o : Oracles) (now : DateParts) (u : String) :
    (∀ r rest, resp.results = r :: rest →
      IndexJs.getContactData cid (.ok resp) = .ok r.properties ∧
      IndexJs.getDealData did (.ok resp) = .ok r.properties) ∧
    (resp.results = [] →
      IndexJs.getContactData cid (.ok resp) = .error "No se encontró el contacto" ∧
      IndexJs.getDealData did (.ok resp) = .error "No se encontró el negocio") ∧
    (truthy did = true → truthy cid = true → o.contactSearch = .ok ⟨[]⟩ →
      (IndexJs.webhook did cid (some tok) o now u).1
        = .serverError "No se encontró el contacto" ∧
      statusOf (IndexJs.webhook did cid (some tok) o now u).1 = 500) := by
  obtain ⟨results⟩ := resp
  refine ⟨?_, ?_, ?_⟩
  · intro r rest h
    cases h
    exact ⟨rfl, rfl⟩
  · intro h
    cases h
    exact ⟨rfl, rfl⟩
  · intro hd hc hcs
    have hfetch : IndexJs.getContactData cid o.contactSearch
        = .error "No se encontró el contacto" := by
      rw [hcs]
      rfl
    constructor
    · simp [IndexJs.webhook, hd, hc, hfetch]
    · simp [IndexJs.webhook, hd, hc, hfetch, statusOf]

theorem claim_C6_witness :
    IndexJs.getContactData (.str "7") (.ok ⟨[⟨[("firstname", "Jane")]⟩]⟩)
      = .ok [("firstname", "Jane")] ∧
    statusOf (IndexJs.webhook (.str "1") (.str "2") (some "t")
        emptyContactOracles ⟨5, 0, 2024⟩ "u0").1 = 500 :=
  ⟨((claim_C6_fetchers (.str "7") (.str "8") ⟨[⟨[("firstname", "Jane")]⟩]⟩ "t"
      okOracles ⟨5, 0, 2024⟩ "u0").1 ⟨[("firstname", "Jane")]⟩ [] rfl).1,
   ((claim_C6_fetchers (.str "2") (.str "1") ⟨[]⟩ "t" emptyContactOracles
      ⟨5, 0, 2024⟩ "u0").2.2 rfl rfl rfl).2⟩

/-- C7: when the webhook body lacks a truthy `dealId` or `contactId`,
both handlers answer with the 400 validation envelope whose `received`
flags report exactly which of the two ids was present, and they perform
no outbound call at all. -/
theorem claim_C7_validation (dealId contactId : JSVal) (tok : Option String)
    (o : Oracles) (now : DateParts) (u : String)
    (h : truthy dealId = false ∨ truthy contactId = false) :
    IndexJs.webhook dealId contactId tok o now u
      = (.badRequest (truthy dealId) (truthy contactId), []) ∧
    statusOf (IndexJs.webhook dealId contactId tok o now u).1 = 400 ∧
    Part001.webhook dealId contactId tok o now u
      = (.badRequest (truthy dealId) (truthy contactId), []) ∧
    statusOf (Part001.webhook dealId contactId tok o now u).1 = 400 := by
  have hb : (!truthy dealId || !truthy contactId) = true := by
    rcases h with h | h <;> simp [h]
  refine ⟨?_, ?_, ?_, ?_⟩ <;>
    simp [IndexJs.webhook, Part001.webhook, hb, statusOf]

theorem claim_C7_witness :
    IndexJs.webhook .undefined (.str "123") none okOracles ⟨5, 0, 2024⟩ "u0"
      = (.badRequest false true, []) ∧
    Part001.webhook (.str "123") .undefined none okOracles ⟨5, 0, 2024⟩ "u0"
      = (.badRequest true false, []) :=
  ⟨(claim_C7_validation .undefined (.str "123") none okOracles ⟨5, 0, 2024⟩ "u0"
      (Or.inl rfl)).1,
   (claim_C7_validation (.str "123") .undefined none okOracles ⟨5, 0, 2024⟩ "u0"
      (Or.inr rfl)).2.2.1⟩
